import Mathlib

/-!
# Leaderboard server (`src/server.js`)

A shallow embedding of the four Express routes of `src/server.js`
(`POST /signup`, `POST /login`, `POST /high-scores`, `GET /high-scores`) together
with the two middlewares `validateBody` and `authenticateToken`.

Modelling decisions:

* The two in-memory arrays `users` and `scores` become the fields of `State`;
  every handler is a function from a state and a request to a new state and a
  response.  Requests are handled one after another.
* `req.body` is the JSON value delivered by `express.json()` (`JVal`).  The body
  parser itself (line 9) is the stage `postHighScoresRequest` puts in front of the
  route: it either delivers `req.body` or ends the request with its own error.
* The third-party functions the handlers call (`bcrypt.hash`, `bcrypt.compare`,
  `jwt.sign`, `jwt.verify`, the `ajv-formats` format checks) are fields of `Lib`.
  The salt drawn by `bcrypt.hash` and the clock read by `jsonwebtoken` are explicit
  arguments of the handlers.
* `Array.prototype.sort` is a stable sort; for the comparator
  `(a, b) => b.score - a.score` its result is the stable insertion sort `jsSort`.
* `Array.prototype.slice` follows ECMAScript (negative indices count from the end).
* The numeric value of the `page` query parameter is an integer (`Int`); `none`
  stands for an omitted parameter.
-/

namespace Server

/-! ## JSON values and the Ajv subset used by the two schemas -/

/-- JSON values as delivered in `req.body`.  `num i` is a number without fractional
part, `frac` a number with one. -/
inductive JVal where
  | null
  | bool (b : Bool)
  | num (i : Int)
  | frac
  | str (s : String)
  | arr (xs : List JVal)
  | obj (kvs : List (String × JVal))

/-- Property read `data[key]` on a JSON value (`undefined` is `none`). -/
def JVal.get (data : JVal) (key : String) : Option JVal :=
  match data with
  | .obj kvs => kvs.lookup key
  | _ => none

/-- The `type` keywords occurring in the property schemas. -/
inductive JType where
  | string
  | integer
  deriving DecidableEq, Repr

/-- The schema of one property: `{ type, minLength?, format? }`. -/
structure PropSchema where
  type : JType
  minLength : Option Nat
  format : Option String

/-- An object schema `{ type: "object", properties, required, additionalProperties }`. -/
structure Schema where
  properties : List (String × PropSchema)
  required : List String
  additionalProperties : Bool

/-- The `params` member of an Ajv error object. -/
inductive ErrParams where
  | type (t : String)
  | missingProperty (p : String)
  | additionalProperty (p : String)
  | limit (n : Nat)
  | format (f : String)
  deriving DecidableEq, Repr

/-- An Ajv error object: `{ instancePath, keyword, params }`. -/
structure AjvError where
  instancePath : String
  keyword : String
  params : ErrParams
  deriving DecidableEq, Repr

/-- The library functions called by the handlers. -/
structure Lib where
  /-- Models `bcrypt.hash(password, 10)`; the second argument is the random salt. -/
  bcryptHash : String → Nat → String
  /-- Models `bcrypt.compare(password, hash)`. -/
  bcryptCompare : String → String → Bool
  /-- Models `jwt.sign` of the handle with the one-hour expiry, at a clock value. -/
  jwtSign : String → Nat → String
  /-- Models `jwt.verify(token, secret, cb)` at a clock value: `none` is `err`, `some` the payload. -/
  jwtVerify : String → Nat → Option String
  /-- Models the `ajv-formats` check of a named format on a string. -/
  formatOk : String → String → Bool

/-- Line 22: `userSchema`. -/
def userSchema : Schema :=
  { properties :=
      [("userHandle", { type := .string, minLength := some 6, format := none }),
       ("password", { type := .string, minLength := some 6, format := none })]
    required := ["userHandle", "password"]
    additionalProperties := false }

/-- Line 32: `scoreSchema`. -/
def scoreSchema : Schema :=
  { properties :=
      [("level", { type := .string, minLength := none, format := none }),
       ("userHandle", { type := .string, minLength := none, format := none }),
       ("score", { type := .integer, minLength := none, format := none }),
       ("timestamp", { type := .string, minLength := none, format := some "date-time" })]
    required := ["level", "userHandle", "score", "timestamp"]
    additionalProperties := false }

/-- Errors of the `required` keyword: one per required property that is `undefined`. -/
def requiredErrors (required : List String) (kvs : List (String × JVal)) : List AjvError :=
  (required.filter (fun p => (kvs.lookup p).isNone)).map
    (fun p => { instancePath := "", keyword := "required", params := .missingProperty p })

/-- Errors of `additionalProperties: false`: one per key that `properties` does not list. -/
def additionalErrors (s : Schema) (kvs : List (String × JVal)) : List AjvError :=
  if s.additionalProperties then []
  else ((kvs.map Prod.fst).filter (fun k => (s.properties.lookup k).isNone)).map
    (fun k => { instancePath := "", keyword := "additionalProperties",
                params := .additionalProperty k })

/-- Errors of one property schema on a present value (all errors are collected). -/
def propErrors (lib : Lib) (key : String) (ps : PropSchema) (v : JVal) : List AjvError :=
  match ps.type, v with
  | .string, .str s =>
    (match ps.minLength with
      | some m =>
        if s.length < m then
          [{ instancePath := "/" ++ key, keyword := "minLength", params := .limit m }]
        else []
      | none => []) ++
    (match ps.format with
      | some f =>
        if lib.formatOk f s then []
        else [{ instancePath := "/" ++ key, keyword := "format", params := .format f }]
      | none => [])
  | .string, _ => [{ instancePath := "/" ++ key, keyword := "type", params := .type "string" }]
  | .integer, .num _ => []
  | .integer, _ => [{ instancePath := "/" ++ key, keyword := "type", params := .type "integer" }]

/-- Errors of the `properties` keyword: each listed property that is present is checked. -/
def propertiesErrors (lib : Lib) (props : List (String × PropSchema))
    (kvs : List (String × JVal)) : List AjvError :=
  props.flatMap (fun kp =>
    match kvs.lookup kp.1 with
    | some v => propErrors lib kp.1 kp.2 v
    | none => [])

/-- The compiled validator `ajv.compile(schema)` with `allErrors: true`: the list
`validate.errors` (empty when the data is valid). -/
def validate (lib : Lib) (s : Schema) (data : JVal) : List AjvError :=
  match data with
  | .obj kvs =>
    requiredErrors s.required kvs ++ additionalErrors s kvs ++
      propertiesErrors lib s.properties kvs
  | _ => [{ instancePath := "", keyword := "type", params := .type "object" }]

/-! ## Stores, requests and responses -/

/-- An element of the `users` array: `{ userHandle, password: hashedPassword }`. -/
structure User where
  userHandle : String
  password : String
  deriving DecidableEq, Repr

/-- An element of the `scores` array: a body accepted by `scoreSchema`. -/
structure Score where
  level : String
  userHandle : String
  score : Int
  timestamp : String
  deriving DecidableEq, Repr

/-- The two in-memory arrays of lines 18-19. -/
structure State where
  users : List User
  scores : List Score
  deriving DecidableEq, Repr

/-- Both arrays start empty. -/
def State.init : State := { users := [], scores := [] }

/-- The JSON payloads the handlers send. -/
inductive Body where
  | errors (es : List AjvError)
  | message (m : String)
  | jsonWebToken (t : String)
  | scores (l : List Score)
  deriving DecidableEq, Repr

/-- A response: `res.sendStatus(code)`, `res.status(code).json(body)`, or the answer
of the Express error handler to an error raised by the body parser. -/
inductive Response where
  | sendStatus (code : Nat)
  | json (code : Nat) (body : Body)
  | parserError (code : Nat)
  deriving DecidableEq, Repr

/-- The registered status message that `res.sendStatus(code)` sends as its text
body, for the two codes the handlers pass (201 and 401); a code without a
registered message is sent as its decimal string. -/
def statusMessage : Nat → String
  | 201 => "Created"
  | 401 => "Unauthorized"
  | n => toString n

/-- The entity a response carries on the wire. -/
inductive WireBody where
  | text (s : String)
  | json (body : Body)
  | errorPage
  deriving DecidableEq, Repr

/-- The status code of a response. -/
def Response.status : Response → Nat
  | .sendStatus code => code
  | .json code _ => code
  | .parserError code => code

/-- The entity of a response: `res.sendStatus(code)` sends the status message as
text, `res.json` the JSON payload, the error handler its error page. -/
def Response.wireBody : Response → WireBody
  | .sendStatus code => .text (statusMessage code)
  | .json _ body => .json body
  | .parserError _ => .errorPage

/-- A value of `req.query`: a string, or the array or object that a repeated or
bracketed parameter produces. -/
inductive QueryValue where
  | str (s : String)
  | other
  deriving DecidableEq, Repr

/-- String member `body[key]` of a validated body. -/
def strField (body : JVal) (key : String) : String :=
  match body.get key with
  | some (.str s) => s
  | _ => ""

/-- Integer member `body[key]` of a validated body. -/
def intField (body : JVal) (key : String) : Int :=
  match body.get key with
  | some (.num i) => i
  | _ => 0

/-- The record that `scores.push(req.body)` stores for a body accepted by `scoreSchema`. -/
def asScore (body : JVal) : Score :=
  { level := strField body "level"
    userHandle := strField body "userHandle"
    score := intField body "score"
    timestamp := strField body "timestamp" }

/-- The body `b` carries exactly the four members of the record `r`. -/
def IsRecordOf (b : JVal) (r : Score) : Prop :=
  b.get "level" = some (.str r.level) ∧ b.get "userHandle" = some (.str r.userHandle) ∧
    b.get "score" = some (.num r.score) ∧ b.get "timestamp" = some (.str r.timestamp)

/-! ## Array helpers -/

/-- The comparator `(a, b) => b.score - a.score`. -/
def compareScores (a b : Score) : Int := b.score - a.score

/-- Insertion of `a`, which stood before every element of the sorted list, keeping
it in front of the elements it compares equal to. -/
def insertBy {α : Type} (cmp : α → α → Int) (a : α) : List α → List α
  | [] => [a]
  | b :: l => if cmp a b ≤ 0 then a :: b :: l else b :: insertBy cmp a l

/-- Models `Array.prototype.sort(cmp)`: the stable sort for the comparator. -/
def jsSort {α : Type} (cmp : α → α → Int) : List α → List α
  | [] => []
  | a :: l => insertBy cmp a (jsSort cmp l)

/-- The index clamping of `Array.prototype.slice`: a negative relative index
counts from the end, and the result is clamped to `[0, len]`. -/
def relIndex (len : Nat) (i : Int) : Nat :=
  if i < 0 then ((len : Int) + i).toNat else min i.toNat len

/-- Models `Array.prototype.slice(start, end)`. -/
def slice {α : Type} (xs : List α) (startIndex endIndex : Int) : List α :=
  let k := relIndex xs.length startIndex
  let final := relIndex xs.length endIndex
  (xs.drop k).take (final - k)

/-! ## Middlewares -/

/-- Line 45: `validateBody(schema)`: `some` is the 400 response, `none` is `next()`. -/
def validateBody (lib : Lib) (schema : Schema) (body : JVal) : Option Response :=
  let errors := validate lib schema body
  if errors.isEmpty then none else some (.json 400 (.errors errors))

/-- Models `String.prototype.split` for a one-character separator, on the
characters of the string: the pieces between the occurrences of the separator. -/
def jsSplit (sep : Char) : List Char → List (List Char)
  | [] => [[]]
  | c :: cs =>
    if c = sep then [] :: jsSplit sep cs
    else
      match jsSplit sep cs with
      | [] => [[c]]
      | w :: ws => (c :: w) :: ws

/-- Line 58: `authHeader && authHeader.split(" ")[1]`, with falsy results as `none`. -/
def bearerToken (authHeader : Option String) : Option String :=
  match authHeader with
  | none => none
  | some h =>
    match (jsSplit ' ' h.data)[1]? with
    | some t => if t.isEmpty then none else some (String.mk t)
    | none => none

/-- Line 56: `authenticateToken`: `some` is the 401 response, `none` is `next()`. -/
def authenticateToken (lib : Lib) (authHeader : Option String) (now : Nat) :
    Option Response :=
  match bearerToken authHeader with
  | none => some (.sendStatus 401)
  | some token =>
    match lib.jwtVerify token now with
    | none => some (.sendStatus 401)
    | some _ => none

/-! ## Route handlers -/

/-- Line 71: `POST /signup`. -/
def signup (lib : Lib) (st : State) (body : JVal) (salt : Nat) : State × Response :=
  match validateBody lib userSchema body with
  | some r => (st, r)
  | none =>
    let userHandle := strField body "userHandle"
    let password := strField body "password"
    match st.users.find? (fun u => u.userHandle == userHandle) with
    | some existingUser =>
      if lib.bcryptCompare password existingUser.password then (st, .sendStatus 201)
      else (st, .json 400 (.message "User already exists"))
    | none =>
      let hashedPassword := lib.bcryptHash password salt
      ({ st with users := st.users ++ [{ userHandle := userHandle, password := hashedPassword }] },
        .sendStatus 201)

/-- Line 92: `POST /login`. -/
def login (lib : Lib) (st : State) (body : JVal) (now : Nat) : State × Response :=
  match validateBody lib userSchema body with
  | some r => (st, r)
  | none =>
    let userHandle := strField body "userHandle"
    let password := strField body "password"
    match st.users.find? (fun u => u.userHandle == userHandle) with
    | none => (st, .sendStatus 401)
    | some user =>
      if lib.bcryptCompare password user.password then
        (st, .json 200 (.jsonWebToken (lib.jwtSign userHandle now)))
      else (st, .sendStatus 401)

/-- Line 108: `POST /high-scores`. -/
def postHighScores (lib : Lib) (st : State) (authHeader : Option String) (body : JVal)
    (now : Nat) : State × Response :=
  match authenticateToken lib authHeader now with
  | some r => (st, r)
  | none =>
    match validateBody lib scoreSchema body with
    | some r => (st, r)
    | none =>
      ({ st with scores := jsSort compareScores (st.scores ++ [asScore body]) },
        .sendStatus 201)

/-- The outcome of `express.json()` (line 9) on the entity of a request: it sets
`req.body` and calls `next()`, or it raises an error with a status code (400 for a
JSON text it cannot parse) and no route middleware runs. -/
inductive ParsedEntity where
  | body (v : JVal)
  | parseError (code : Nat)

/-- Lines 9 and 108: a `POST /high-scores` request as the application handles it,
`express.json()` first, then `authenticateToken`, `validateBody` and the handler. -/
def postHighScoresRequest (lib : Lib) (st : State) (authHeader : Option String)
    (entity : ParsedEntity) (now : Nat) : State × Response :=
  match entity with
  | .parseError code => (st, .parserError code)
  | .body v => postHighScores lib st authHeader v now

/-- Line 117: `!level`. -/
def levelMissing (level : Option QueryValue) : Bool :=
  match level with
  | none => true
  | some (.str s) => s == ""
  | some .other => false

/-- Line 120: `s.level === level` for a stored string `s.level`. -/
def levelMatches (level : Option QueryValue) (s : Score) : Bool :=
  match level with
  | some (.str l) => s.level == l
  | _ => false

/-- Line 115: `GET /high-scores`. -/
def getHighScores (st : State) (level : Option QueryValue) (page : Option Int) :
    State × Response :=
  let page := page.getD 1
  if levelMissing level then (st, .json 400 (.message "Level is required"))
  else
    let filteredScores := jsSort compareScores (st.scores.filter (levelMatches level))
    let pageSize : Int := 20
    let startIndex := (page - 1) * pageSize
    let endIndex := startIndex + pageSize
    let paginatedScores := slice filteredScores startIndex endIndex
    (st, .json 200 (.scores paginatedScores))

/-! ## The server as a transition system -/

/-- The four requests, with the values the handlers read from their environment. -/
inductive Request where
  | signup (body : JVal) (salt : Nat)
  | login (body : JVal) (now : Nat)
  | postHighScores (authHeader : Option String) (body : JVal) (now : Nat)
  | getHighScores (level : Option QueryValue) (page : Option Int)

/-- One request handled to completion. -/
def handle (lib : Lib) (st : State) : Request → State × Response
  | .signup body salt => signup lib st body salt
  | .login body now => login lib st body now
  | .postHighScores h body now => postHighScores lib st h body now
  | .getHighScores level page => getHighScores st level page

/-- The states reached from the empty stores by requests handled one after another. -/
inductive Reachable (lib : Lib) : State → Prop where
  | init : Reachable lib State.init
  | step (st : State) (req : Request) : Reachable lib st → Reachable lib (handle lib st req).1

/-- Non-increasing order of the `score` field. -/
def SortedDesc (l : List Score) : Prop := l.Pairwise (fun a b => b.score ≤ a.score)

/-- At most one user per handle. -/
def UniqueHandles (users : List User) : Prop := (users.map User.userHandle).Nodup

/-- A score payload accepted by `scoreSchema` under `demoLib`. -/
def demoScoreBody (level : String) (score : Int) : JVal :=
  .obj [("level", .str level), ("userHandle", .str "player1"), ("score", .num score),
    ("timestamp", .str "2025-01-01T00:00:00Z")]

/-- A user payload. -/
def demoUserBody (userHandle password : String) : JVal :=
  .obj [("userHandle", .str userHandle), ("password", .str password)]

/-- The ledger after the three submissions of the example: scores 10 and 50 on
level `A`, score 99 on level `B`. -/
def demoLedger : State :=
  { users := []
    scores := [⟨"B", "u", 99, "t"⟩, ⟨"A", "u", 50, "t"⟩, ⟨"A", "u", 10, "t"⟩] }

/-- A ledger holding 21 records of level `A`, with scores 21 down to 1. -/
def demoLedger21 : State :=
  { users := []
    scores := (List.range 21).map (fun i => ⟨"A", "u", 21 - (i : Int), "t"⟩) }

/-- A concrete library instance for evaluating the handlers: the hash of a password
is the password behind a fixed prefix, a token is `tok.` followed by the handle, and
only the listed timestamp passes the `date-time` format. -/
def demoLib : Lib :=
  { bcryptHash := fun pw _ => "$2b$10$" ++ pw
    bcryptCompare := fun pw h => h == "$2b$10$" ++ pw
    jwtSign := fun h _ => "tok." ++ h
    jwtVerify := fun t _ =>
      match t.data with
      | 't' :: 'o' :: 'k' :: '.' :: rest => some (String.mk rest)
      | _ => none
    formatOk := fun f s => f == "date-time" && s == "2025-01-01T00:00:00Z" }

/-! ## Lemmas on the array helpers -/

theorem insertBy_perm {α : Type} (cmp : α → α → Int) (a : α) (l : List α) :
    (insertBy cmp a l).Perm (a :: l) := by
  induction l with
  | nil => exact List.Perm.refl _
  | cons b l ih =>
    unfold insertBy
    split
    · exact List.Perm.refl _
    · exact (List.Perm.cons b ih).trans (List.Perm.swap a b l)

theorem jsSort_perm {α : Type} (cmp : α → α → Int) (l : List α) :
    (jsSort cmp l).Perm l := by
  induction l with
  | nil => exact List.Perm.refl _
  | cons a l ih => exact (insertBy_perm cmp a _).trans (List.Perm.cons a ih)

theorem jsSort_length {α : Type} (cmp : α → α → Int) (l : List α) :
    (jsSort cmp l).length = l.length :=
  (jsSort_perm cmp l).length_eq

theorem insertBy_sorted (a : Score) (l : List Score) (h : SortedDesc l) :
    SortedDesc (insertBy compareScores a l) := by
  induction l with
  | nil => simp [insertBy, SortedDesc]
  | cons b l ih =>
    unfold SortedDesc at h ih ⊢
    rw [List.pairwise_cons] at h
    unfold insertBy
    split
    · rename_i hle
      simp only [compareScores] at hle
      rw [List.pairwise_cons]
      refine ⟨?_, List.pairwise_cons.mpr h⟩
      intro c hc
      rcases List.mem_cons.mp hc with rfl | hc
      · omega
      · have := h.1 c hc
        omega
    · rename_i hgt
      simp only [compareScores] at hgt
      rw [List.pairwise_cons]
      refine ⟨?_, ih h.2⟩
      intro c hc
      rcases List.mem_cons.mp ((insertBy_perm compareScores a l).mem_iff.mp hc) with rfl | hc
      · omega
      · exact h.1 c hc

theorem jsSort_sorted (l : List Score) : SortedDesc (jsSort compareScores l) := by
  induction l with
  | nil => simp [jsSort, SortedDesc]
  | cons a l ih => exact insertBy_sorted a _ ih

/-- Stability: records with the same score keep their relative order. -/
theorem insertBy_filter_score (v : Int) (a : Score) (l : List Score) :
    (insertBy compareScores a l).filter (fun s => s.score == v) =
      (a :: l).filter (fun s => s.score == v) := by
  induction l with
  | nil => rfl
  | cons b l ih =>
    unfold insertBy
    split
    · rfl
    · rename_i hgt
      simp only [compareScores] at hgt
      by_cases hb : b.score = v
      · have ha : ¬ a.score = v := by omega
        simp only [List.filter_cons, beq_iff_eq, hb, ha, if_true, if_false] at ih ⊢
        rw [ih]
      · simp only [List.filter_cons, beq_iff_eq, hb, if_false] at ih ⊢
        exact ih

theorem jsSort_filter_score (v : Int) (l : List Score) :
    (jsSort compareScores l).filter (fun s => s.score == v) =
      l.filter (fun s => s.score == v) := by
  induction l with
  | nil => rfl
  | cons a l ih =>
    show (insertBy compareScores a (jsSort compareScores l)).filter _ = _
    rw [insertBy_filter_score, List.filter_cons, List.filter_cons, ih]

theorem relIndex_nonneg (len : Nat) (n : Nat) : relIndex len (n : Int) = min n len := by
  unfold relIndex
  have : ¬ ((n : Int) < 0) := by omega
  simp [this]

theorem slice_nonneg {α : Type} (xs : List α) (n m : Nat) :
    slice xs (n : Int) ((n : Int) + (m : Int)) = (xs.drop n).take m := by
  have h2 : ((n : Int) + (m : Int)) = ((n + m : Nat) : Int) := by push_cast; rfl
  show ((xs.drop (relIndex xs.length n)).take
    (relIndex xs.length ((n : Int) + (m : Int)) - relIndex xs.length n)) = _
  rw [h2, relIndex_nonneg, relIndex_nonneg]
  by_cases hn : xs.length ≤ n
  · rw [List.drop_of_length_le hn, Nat.min_eq_right hn,
      List.drop_of_length_le (Nat.le_refl _)]
    simp
  · have hn2 : n ≤ xs.length := by omega
    rw [Nat.min_eq_left hn2]
    apply List.take_eq_take.mpr
    rw [List.length_drop]
    omega

theorem getHighScores_ok (st : State) (level : String) (page : Option Int)
    (hlevel : level ≠ "") :
    getHighScores st (some (.str level)) page =
      (st, .json 200 (.scores (slice
        (jsSort compareScores (st.scores.filter (fun s => s.level == level)))
        ((page.getD 1 - 1) * 20) ((page.getD 1 - 1) * 20 + 20)))) := by
  have h : levelMissing (some (.str level)) = false := by
    simp [levelMissing, hlevel]
  unfold getHighScores
  simp only [h]
  rfl

theorem getHighScores_pos (st : State) (level : String) (page : Int)
    (hlevel : level ≠ "") (hpage : 1 ≤ page) :
    getHighScores st (some (.str level)) (some page) =
      (st, .json 200 (.scores
        (((jsSort compareScores (st.scores.filter (fun s => s.level == level))).drop
          (20 * (page - 1).toNat)).take 20))) := by
  rw [getHighScores_ok st level (some page) hlevel]
  obtain ⟨n, hn⟩ : ∃ n : Nat, page - 1 = (n : Int) := ⟨(page - 1).toNat, by omega⟩
  have h1 : ((some page).getD 1 - 1) * 20 = ((20 * n : Nat) : Int) := by
    simp only [Option.getD_some]; rw [hn]; push_cast; ring
  have h2 : (20 : Int) = ((20 : Nat) : Int) := rfl
  rw [h1, hn, Int.toNat_ofNat]
  conv_lhs => rw [h2]
  rw [slice_nonneg]

/-! ## Lemmas on validation -/

theorem validateBody_eq_none (lib : Lib) (schema : Schema) (body : JVal)
    (h : validate lib schema body = []) : validateBody lib schema body = none := by
  simp [validateBody, h]

theorem validateBody_eq_some (lib : Lib) (schema : Schema) (body : JVal)
    (h : validate lib schema body ≠ []) :
    validateBody lib schema body = some (.json 400 (.errors (validate lib schema body))) := by
  simp [validateBody, h]

theorem validate_obj (lib : Lib) (schema : Schema) (body : JVal)
    (h : validate lib schema body = []) :
    ∃ kvs, body = .obj kvs ∧ requiredErrors schema.required kvs = [] ∧
      additionalErrors schema kvs = [] ∧ propertiesErrors lib schema.properties kvs = [] := by
  cases body with
  | obj kvs =>
    simp only [validate, List.append_eq_nil] at h
    exact ⟨kvs, rfl, h.1.1, h.1.2, h.2⟩
  | _ => simp [validate] at h

theorem requiredErrors_nil (required : List String) (kvs : List (String × JVal))
    (h : requiredErrors required kvs = []) (p : String) (hp : p ∈ required) :
    ∃ v, kvs.lookup p = some v := by
  unfold requiredErrors at h
  rw [List.map_eq_nil_iff, List.filter_eq_nil_iff] at h
  have := h p hp
  cases hl : kvs.lookup p with
  | none => simp [hl] at this
  | some v => exact ⟨v, rfl⟩

theorem propertiesErrors_nil (lib : Lib) (props : List (String × PropSchema))
    (kvs : List (String × JVal)) (h : propertiesErrors lib props kvs = [])
    (k : String) (ps : PropSchema) (hk : (k, ps) ∈ props) (v : JVal)
    (hv : kvs.lookup k = some v) : propErrors lib k ps v = [] := by
  unfold propertiesErrors at h
  rw [List.flatMap_eq_nil_iff] at h
  have := h (k, ps) hk
  simpa [hv] using this

theorem propErrors_string (lib : Lib) (k : String) (ps : PropSchema) (v : JVal)
    (ht : ps.type = .string) (h : propErrors lib k ps v = []) :
    ∃ s, v = .str s ∧ (∀ m, ps.minLength = some m → m ≤ s.length) ∧
      (∀ f, ps.format = some f → lib.formatOk f s = true) := by
  unfold propErrors at h
  rw [ht] at h
  cases v with
  | str s =>
    refine ⟨s, rfl, ?_, ?_⟩
    · intro m hm
      simp only [hm, List.append_eq_nil] at h
      by_contra hlt
      have hlt2 : s.length < m := by omega
      simp [hlt2] at h
    · intro f hf
      simp only [hf, List.append_eq_nil] at h
      by_contra hb
      simp [hb] at h
  | _ => simp at h

theorem propErrors_integer (lib : Lib) (k : String) (ps : PropSchema) (v : JVal)
    (ht : ps.type = .integer) (h : propErrors lib k ps v = []) : ∃ i, v = .num i := by
  unfold propErrors at h
  rw [ht] at h
  cases v with
  | num i => exact ⟨i, rfl⟩
  | _ => simp at h

/-- A body accepted by `scoreSchema` has a string `level`, `userHandle` and `timestamp`
and an integer `score`, which are the members of `asScore body`. -/
theorem validate_scoreSchema_fields (lib : Lib) (body : JVal)
    (h : validate lib scoreSchema body = []) : IsRecordOf body (asScore body) := by
  obtain ⟨kvs, rfl, hreq, -, hprops⟩ := validate_obj lib scoreSchema body h
  obtain ⟨v1, h1⟩ := requiredErrors_nil _ kvs hreq "level" (by simp [scoreSchema])
  obtain ⟨v2, h2⟩ := requiredErrors_nil _ kvs hreq "userHandle" (by simp [scoreSchema])
  obtain ⟨v3, h3⟩ := requiredErrors_nil _ kvs hreq "score" (by simp [scoreSchema])
  obtain ⟨v4, h4⟩ := requiredErrors_nil _ kvs hreq "timestamp" (by simp [scoreSchema])
  obtain ⟨s1, rfl, -⟩ := propErrors_string lib _ ⟨.string, none, none⟩ v1 rfl
    (propertiesErrors_nil lib _ kvs hprops "level" ⟨.string, none, none⟩ (by simp [scoreSchema]) v1 h1)
  obtain ⟨s2, rfl, -⟩ := propErrors_string lib _ ⟨.string, none, none⟩ v2 rfl
    (propertiesErrors_nil lib _ kvs hprops "userHandle" ⟨.string, none, none⟩ (by simp [scoreSchema]) v2 h2)
  obtain ⟨i3, rfl⟩ := propErrors_integer lib _ ⟨.integer, none, none⟩ v3 rfl
    (propertiesErrors_nil lib _ kvs hprops "score" ⟨.integer, none, none⟩ (by simp [scoreSchema]) v3 h3)
  obtain ⟨s4, rfl, -⟩ := propErrors_string lib _ ⟨.string, none, some "date-time"⟩ v4 rfl
    (propertiesErrors_nil lib _ kvs hprops "timestamp" ⟨.string, none, some "date-time"⟩ (by simp [scoreSchema]) v4 h4)
  simp [IsRecordOf, asScore, strField, intField, JVal.get, h1, h2, h3, h4]

/-- A body accepted by `userSchema` has string members `userHandle` and `password`
of at least six characters, which are the values the handlers destructure. -/
theorem validate_userSchema_fields (lib : Lib) (body : JVal)
    (h : validate lib userSchema body = []) :
    body.get "userHandle" = some (.str (strField body "userHandle")) ∧
    body.get "password" = some (.str (strField body "password")) ∧
    6 ≤ (strField body "userHandle").length ∧ 6 ≤ (strField body "password").length := by
  obtain ⟨kvs, rfl, hreq, -, hprops⟩ := validate_obj lib userSchema body h
  obtain ⟨v1, h1⟩ := requiredErrors_nil _ kvs hreq "userHandle" (by simp [userSchema])
  obtain ⟨v2, h2⟩ := requiredErrors_nil _ kvs hreq "password" (by simp [userSchema])
  obtain ⟨s1, rfl, hm1, -⟩ := propErrors_string lib _ ⟨.string, some 6, none⟩ v1 rfl
    (propertiesErrors_nil lib _ kvs hprops "userHandle" ⟨.string, some 6, none⟩ (by simp [userSchema]) v1 h1)
  obtain ⟨s2, rfl, hm2, -⟩ := propErrors_string lib _ ⟨.string, some 6, none⟩ v2 rfl
    (propertiesErrors_nil lib _ kvs hprops "password" ⟨.string, some 6, none⟩ (by simp [userSchema]) v2 h2)
  have := hm1 6 rfl
  have := hm2 6 rfl
  simp [strField, JVal.get, h1, h2]
  omega

/-! ## Lemmas on the handlers -/

theorem postHighScores_ok (lib : Lib) (st : State) (hdr : Option String) (body : JVal)
    (now : Nat) (hauth : authenticateToken lib hdr now = none)
    (hvalid : validate lib scoreSchema body = []) :
    postHighScores lib st hdr body now =
      ({ st with scores := jsSort compareScores (st.scores ++ [asScore body]) },
        .sendStatus 201) := by
  simp [postHighScores, hauth, validateBody_eq_none lib scoreSchema body hvalid]

theorem postHighScores_cases (lib : Lib) (st : State) (hdr : Option String) (body : JVal)
    (now : Nat) :
    (postHighScores lib st hdr body now).1 = st ∨
    (postHighScores lib st hdr body now).1 =
      { st with scores := jsSort compareScores (st.scores ++ [asScore body]) } := by
  unfold postHighScores
  cases authenticateToken lib hdr now with
  | some r => exact Or.inl rfl
  | none =>
    cases validateBody lib scoreSchema body with
    | some r => exact Or.inl rfl
    | none => exact Or.inr rfl

theorem login_state (lib : Lib) (st : State) (body : JVal) (now : Nat) :
    (login lib st body now).1 = st := by
  unfold login
  cases validateBody lib userSchema body with
  | some r => rfl
  | none =>
    simp only
    cases st.users.find? (fun u => u.userHandle == strField body "userHandle") with
    | none => rfl
    | some u =>
      simp only
      split <;> rfl

theorem getHighScores_state (st : State) (level : Option QueryValue) (page : Option Int) :
    (getHighScores st level page).1 = st := by
  unfold getHighScores
  simp only
  split <;> rfl

theorem signup_cases (lib : Lib) (st : State) (body : JVal) (salt : Nat) :
    (signup lib st body salt).1 = st ∨
    (st.users.find? (fun u => u.userHandle == strField body "userHandle") = none ∧
      (signup lib st body salt).1 =
        { st with users := st.users ++
            [{ userHandle := strField body "userHandle",
               password := lib.bcryptHash (strField body "password") salt }] }) := by
  unfold signup
  cases validateBody lib userSchema body with
  | some r => exact Or.inl rfl
  | none =>
    simp only
    cases hf : st.users.find? (fun u => u.userHandle == strField body "userHandle") with
    | none => exact Or.inr ⟨rfl, rfl⟩
    | some u =>
      simp only
      split <;> exact Or.inl rfl

theorem handle_scores_sorted (lib : Lib) (st : State) (req : Request)
    (h : SortedDesc st.scores) : SortedDesc (handle lib st req).1.scores := by
  cases req with
  | signup body salt =>
    rcases signup_cases lib st body salt with h1 | ⟨-, h1⟩
    · show SortedDesc (signup lib st body salt).1.scores
      rw [h1]; exact h
    · show SortedDesc (signup lib st body salt).1.scores
      rw [h1]; exact h
  | login body now =>
    show SortedDesc (login lib st body now).1.scores
    rw [login_state]; exact h
  | postHighScores hdr body now =>
    show SortedDesc (postHighScores lib st hdr body now).1.scores
    rcases postHighScores_cases lib st hdr body now with h1 | h1
    · rw [h1]; exact h
    · rw [h1]; exact jsSort_sorted _
  | getHighScores level page =>
    show SortedDesc (getHighScores st level page).1.scores
    rw [getHighScores_state]; exact h

theorem reachable_scores_sorted (lib : Lib) (st : State) (h : Reachable lib st) :
    SortedDesc st.scores := by
  induction h with
  | init => exact List.Pairwise.nil
  | step st req _ ih => exact handle_scores_sorted lib st req ih

theorem find?_none_not_mem (users : List User) (h : String)
    (hf : users.find? (fun u => u.userHandle == h) = none) :
    h ∉ users.map User.userHandle := by
  intro hmem
  obtain ⟨u, hu, rfl⟩ := List.mem_map.mp hmem
  have := List.find?_eq_none.mp hf u hu
  simp at this

theorem handle_users_unique (lib : Lib) (st : State) (req : Request)
    (h : UniqueHandles st.users) : UniqueHandles (handle lib st req).1.users := by
  cases req with
  | signup body salt =>
    show UniqueHandles (signup lib st body salt).1.users
    rcases signup_cases lib st body salt with h1 | ⟨hf, h1⟩
    · rw [h1]; exact h
    · rw [h1]
      unfold UniqueHandles at h ⊢
      simp only [List.map_append, List.map_cons, List.map_nil]
      refine List.Nodup.append h (List.nodup_singleton _) ?_
      intro x hx hx2
      rw [List.mem_singleton] at hx2
      subst hx2
      exact find?_none_not_mem st.users _ hf hx
  | login body now =>
    show UniqueHandles (login lib st body now).1.users
    rw [login_state]; exact h
  | postHighScores hdr body now =>
    show UniqueHandles (postHighScores lib st hdr body now).1.users
    rcases postHighScores_cases lib st hdr body now with h1 | h1
    · rw [h1]; exact h
    · rw [h1]; exact h
  | getHighScores level page =>
    show UniqueHandles (getHighScores st level page).1.users
    rw [getHighScores_state]; exact h

theorem mem_slice {α : Type} (xs : List α) (i j : Int) (x : α) (h : x ∈ slice xs i j) :
    x ∈ xs :=
  List.mem_of_mem_drop (List.mem_of_mem_take h)

theorem mem_jsSort {α : Type} (cmp : α → α → Int) (l : List α) (x : α) :
    x ∈ jsSort cmp l ↔ x ∈ l :=
  (jsSort_perm cmp l).mem_iff

/-! ## Claims -/

/-- C1: for every ledger state, every non-empty level string and every integer
page at least 1, `GET /high-scores` responds 200 with the entries at positions
`[20*(page-1), 20*page)` of the ranking of the level: the list `ranked` that is a
permutation of the ledger records with that level, is ordered by non-increasing
score, and keeps records of equal score in ledger order.  Page 2 starts at the
21st-ranked record, and an omitted page is page 1. -/
theorem getHighScores_returns_page (st : State) (level : String) (page : Int)
    (hlevel : level ≠ "") (hpage : 1 ≤ page) :
    ∃ ranked : List Score,
      ranked.Perm (st.scores.filter (fun s => s.level == level)) ∧
      SortedDesc ranked ∧
      (∀ v : Int, ranked.filter (fun s => s.score == v) =
        (st.scores.filter (fun s => s.level == level)).filter (fun s => s.score == v)) ∧
      getHighScores st (some (.str level)) (some page) =
        (st, .json 200 (.scores ((ranked.drop (20 * (page - 1).toNat)).take 20))) ∧
      getHighScores st (some (.str level)) (some 2) =
        (st, .json 200 (.scores ((ranked.drop 20).take 20))) ∧
      ((ranked.drop 20).take 20).head? = ranked[20]? ∧
      getHighScores st (some (.str level)) none =
        getHighScores st (some (.str level)) (some 1) := by
  refine ⟨jsSort compareScores (st.scores.filter (fun s => s.level == level)),
    jsSort_perm _ _, jsSort_sorted _, fun v => jsSort_filter_score v _,
    getHighScores_pos st level page hlevel hpage, ?_, ?_, ?_⟩
  · exact getHighScores_pos st level 2 hlevel (by omega)
  · rw [List.head?_take, List.head?_drop]
    simp
  · rw [getHighScores_ok st level none hlevel, getHighScores_ok st level (some 1) hlevel]
    rfl

/-- Witness for C1 on the example ledger, level `A`, page 1. -/
theorem getHighScores_returns_page_witness :
    ("A" ≠ "" ∧ (1 : Int) ≤ 1) ∧
    ∃ ranked : List Score,
      ranked.Perm (demoLedger.scores.filter (fun s => s.level == "A")) ∧
      SortedDesc ranked ∧
      (∀ v : Int, ranked.filter (fun s => s.score == v) =
        (demoLedger.scores.filter (fun s => s.level == "A")).filter (fun s => s.score == v)) ∧
      getHighScores demoLedger (some (.str "A")) (some 1) =
        (demoLedger, .json 200 (.scores ((ranked.drop (20 * ((1 : Int) - 1).toNat)).take 20))) ∧
      getHighScores demoLedger (some (.str "A")) (some 2) =
        (demoLedger, .json 200 (.scores ((ranked.drop 20).take 20))) ∧
      ((ranked.drop 20).take 20).head? = ranked[20]? ∧
      getHighScores demoLedger (some (.str "A")) none =
        getHighScores demoLedger (some (.str "A")) (some 1) :=
  ⟨⟨by decide, by decide⟩, getHighScores_returns_page demoLedger "A" 1 (by decide) (by decide)⟩

/-- C2 as stated fails: with 21 records of level `A` the page `-1` is below 1, yet the
response is 200 with the top-ranked record, since `slice(-40, -20)` counts from the
end of the 21-element ranking. -/
theorem getHighScores_negative_page_counterexample :
    "A" ≠ "" ∧ (-1 : Int) < 1 ∧
    getHighScores demoLedger21 (some (.str "A")) (some (-1)) =
      (demoLedger21, .json 200 (.scores [⟨"A", "u", 21, "t"⟩])) ∧
    getHighScores demoLedger21 (some (.str "A")) (some (-1)) ≠
      (demoLedger21, .json 200 (.scores [])) := by
  refine ⟨by decide, by decide, by decide, by decide⟩

/-- C2, amended: for every ledger state, non-empty level and integer page the response
is 200, and its array is empty exactly when page is 0, or page is at least 1 and
`20*(page-1)` is at least the number `n` of records of the level, or page is negative
and `n` is at most `20*(-page)`. -/
theorem getHighScores_empty_iff (st : State) (level : String) (page : Int)
    (hlevel : level ≠ "") :
    (∃ l, getHighScores st (some (.str level)) (some page) = (st, .json 200 (.scores l))) ∧
    (getHighScores st (some (.str level)) (some page) = (st, .json 200 (.scores [])) ↔
      (page = 0 ∨
       (1 ≤ page ∧ ((st.scores.filter (fun s => s.level == level)).length : Int) ≤ 20 * (page - 1)) ∨
       (page < 0 ∧ ((st.scores.filter (fun s => s.level == level)).length : Int) ≤ 20 * (-page)))) := by
  rw [getHighScores_ok st level (some page) hlevel]
  refine ⟨⟨_, rfl⟩, ?_⟩
  have hlen := jsSort_length compareScores (st.scores.filter (fun s => s.level == level))
  generalize jsSort compareScores (st.scores.filter (fun s => s.level == level)) = ranked at hlen
  generalize (st.scores.filter (fun s => s.level == level)).length = n at hlen
  have hs : slice ranked (((some page).getD 1 - 1) * 20) (((some page).getD 1 - 1) * 20 + 20) = [] ↔
      (relIndex n ((page - 1) * 20 + 20) ≤ relIndex n ((page - 1) * 20) ∨
        n ≤ relIndex n ((page - 1) * 20)) := by
    show ((ranked.drop (relIndex ranked.length ((page - 1) * 20))).take
      (relIndex ranked.length ((page - 1) * 20 + 20) - relIndex ranked.length ((page - 1) * 20)))
        = [] ↔ _
    rw [List.take_eq_nil_iff, List.drop_eq_nil_iff, hlen]
    omega
  constructor
  · intro h
    have h2 : slice ranked (((some page).getD 1 - 1) * 20) (((some page).getD 1 - 1) * 20 + 20) = [] := by
      injection h with _ h; injection h with _ h; injection h
    have h3 := hs.mp h2
    unfold relIndex at h3
    split_ifs at h3 <;> omega
  · intro h
    have h2 : slice ranked (((some page).getD 1 - 1) * 20) (((some page).getD 1 - 1) * 20 + 20) = [] := by
      apply hs.mpr
      unfold relIndex
      split_ifs <;> omega
    rw [h2]

/-- Witness for the amended C2 on the example ledger, level `A`, page 0. -/
theorem getHighScores_empty_iff_witness :
    "A" ≠ "" ∧
    (∃ l, getHighScores demoLedger (some (.str "A")) (some 0) = (demoLedger, .json 200 (.scores l))) ∧
    (getHighScores demoLedger (some (.str "A")) (some 0) = (demoLedger, .json 200 (.scores [])) ↔
      ((0 : Int) = 0 ∨
       (1 ≤ (0 : Int) ∧
        ((demoLedger.scores.filter (fun s => s.level == "A")).length : Int) ≤ 20 * ((0 : Int) - 1)) ∨
       ((0 : Int) < 0 ∧
        ((demoLedger.scores.filter (fun s => s.level == "A")).length : Int) ≤ 20 * (-(0 : Int))))) :=
  ⟨by decide, getHighScores_empty_iff demoLedger "A" 0 (by decide)⟩

/-- C3: for every ledger state and every body accepted by `scoreSchema` that is
submitted with a valid token, `POST /high-scores` responds 201 and the new ledger is
a permutation of the old ledger plus the submitted record (one entry longer, with
one more occurrence of that record) and is ordered by non-increasing score; the
ledger is ordered by non-increasing score in every reachable state. -/
theorem postHighScores_ledger (lib : Lib) (st : State) (hdr : Option String) (body : JVal)
    (now : Nat) (hauth : authenticateToken lib hdr now = none)
    (hvalid : validate lib scoreSchema body = []) :
    IsRecordOf body (asScore body) ∧
    (postHighScores lib st hdr body now).2 = .sendStatus 201 ∧
    (postHighScores lib st hdr body now).1.users = st.users ∧
    (postHighScores lib st hdr body now).1.scores.Perm (st.scores ++ [asScore body]) ∧
    (postHighScores lib st hdr body now).1.scores.length = st.scores.length + 1 ∧
    (postHighScores lib st hdr body now).1.scores.count (asScore body) =
      st.scores.count (asScore body) + 1 ∧
    SortedDesc (postHighScores lib st hdr body now).1.scores ∧
    (∀ st2, Reachable lib st2 → SortedDesc st2.scores) := by
  rw [postHighScores_ok lib st hdr body now hauth hvalid]
  have hperm := jsSort_perm compareScores (st.scores ++ [asScore body])
  refine ⟨validate_scoreSchema_fields lib body hvalid, rfl, rfl, hperm, ?_, ?_,
    jsSort_sorted _, reachable_scores_sorted lib⟩
  · have := hperm.length_eq
    simpa using this
  · have := hperm.count_eq (asScore body)
    simpa using this

/-- Witness for C3: a valid submission to the example ledger. -/
theorem postHighScores_ledger_witness :
    (authenticateToken demoLib (some "Bearer tok.player1") 0 = none ∧
      validate demoLib scoreSchema (demoScoreBody "A" 50) = []) ∧
    (postHighScores demoLib demoLedger (some "Bearer tok.player1") (demoScoreBody "A" 50) 0).1.scores.length
      = demoLedger.scores.length + 1 :=
  ⟨⟨by decide, by decide⟩,
    (postHighScores_ledger demoLib demoLedger (some "Bearer tok.player1") (demoScoreBody "A" 50) 0
      (by decide) (by decide)).2.2.2.2.1⟩

/-- C4 as stated fails: the hash comparison accepts every password against its own
hash and the payload is valid, yet on a store holding the handle with the hash of
another password the first `POST /signup` responds 400; and on a store holding the
handle twice both requests respond 201 while two stored users have the handle. -/
theorem signup_twice_counterexample :
    (∀ pw salt, demoLib.bcryptCompare pw (demoLib.bcryptHash pw salt) = true) ∧
    validate demoLib userSchema (demoUserBody "player1" "secret2") = [] ∧
    signup demoLib { users := [⟨"player1", "$2b$10$secret1"⟩], scores := [] }
        (demoUserBody "player1" "secret2") 0 =
      ({ users := [⟨"player1", "$2b$10$secret1"⟩], scores := [] },
        .json 400 (.message "User already exists")) ∧
    ((signup demoLib
        (signup demoLib
          { users := [⟨"player1", "$2b$10$secret2"⟩, ⟨"player1", "$2b$10$secret2"⟩], scores := [] }
          (demoUserBody "player1" "secret2") 0).1
        (demoUserBody "player1" "secret2") 1).1.users.filter
      (fun u => u.userHandle == "player1")).length = 2 := by
  refine ⟨?_, by decide, by decide, by decide⟩
  intro pw salt
  simp [demoLib]

/-- C4, amended: on a store that holds at most one user with the handle, and in
which the user found for the handle (if any) has a hash that accepts the password,
and assuming the hash comparison accepts a password against the hash produced from
it, two successive `POST /signup` requests with the same valid payload both respond
201, the second leaves the state exactly as the first left it, and exactly one stored
user has that handle. -/
theorem signup_idempotent (lib : Lib) (st : State) (body : JVal) (salt1 salt2 : Nat)
    (hcmp : ∀ pw salt, lib.bcryptCompare pw (lib.bcryptHash pw salt) = true)
    (hvalid : validate lib userSchema body = [])
    (hmatch : ∀ u, st.users.find? (fun u => u.userHandle == strField body "userHandle") = some u →
      lib.bcryptCompare (strField body "password") u.password = true)
    (huniq : (st.users.filter (fun u => u.userHandle == strField body "userHandle")).length ≤ 1) :
    (signup lib st body salt1).2 = .sendStatus 201 ∧
    (signup lib (signup lib st body salt1).1 body salt2).2 = .sendStatus 201 ∧
    (signup lib (signup lib st body salt1).1 body salt2).1 = (signup lib st body salt1).1 ∧
    ((signup lib (signup lib st body salt1).1 body salt2).1.users.filter
      (fun u => u.userHandle == strField body "userHandle")).length = 1 := by
  have hv := validateBody_eq_none lib userSchema body hvalid
  cases hf : st.users.find? (fun u => u.userHandle == strField body "userHandle") with
  | some u =>
    have h1 : ∀ salt, signup lib st body salt = (st, .sendStatus 201) := by
      intro salt
      simp [signup, hv, hf, hmatch u hf]
    have e1 : (signup lib st body salt1).1 = st := by rw [h1 salt1]
    rw [e1, h1 salt1, h1 salt2]
    refine ⟨rfl, rfl, rfl, ?_⟩
    have hp := List.find?_some hf
    have hmem : u ∈ st.users.filter (fun u => u.userHandle == strField body "userHandle") :=
      List.mem_filter.mpr ⟨List.mem_of_find?_eq_some hf, hp⟩
    have := List.length_pos_of_mem hmem
    show (st.users.filter (fun u => u.userHandle == strField body "userHandle")).length = 1
    omega
  | none =>
    have h1 : signup lib st body salt1 =
        ({ st with users := st.users ++
            [{ userHandle := strField body "userHandle",
               password := lib.bcryptHash (strField body "password") salt1 }] },
          .sendStatus 201) := by
      simp [signup, hv, hf]
    have e1 : (signup lib st body salt1).1 = { st with users := st.users ++
            [{ userHandle := strField body "userHandle",
               password := lib.bcryptHash (strField body "password") salt1 }] } := by rw [h1]
    have h2 : signup lib { st with users := st.users ++
            [{ userHandle := strField body "userHandle",
               password := lib.bcryptHash (strField body "password") salt1 }] } body salt2 =
        ({ st with users := st.users ++
            [{ userHandle := strField body "userHandle",
               password := lib.bcryptHash (strField body "password") salt1 }] },
          .sendStatus 201) := by
      simp [signup, hv, hf, hcmp]
    rw [e1, h1, h2]
    refine ⟨rfl, rfl, rfl, ?_⟩
    have hnil : st.users.filter (fun u => u.userHandle == strField body "userHandle") = [] := by
      rw [List.filter_eq_nil_iff]
      intro a ha
      exact List.find?_eq_none.mp hf a ha
    simp only [List.filter_append, hnil, List.nil_append]
    simp

/-- Witness for the amended C4: a fresh handle registered twice on the empty store. -/
theorem signup_idempotent_witness :
    ((∀ pw salt, demoLib.bcryptCompare pw (demoLib.bcryptHash pw salt) = true) ∧
      validate demoLib userSchema (demoUserBody "player1" "secret1") = []) ∧
    (signup demoLib State.init (demoUserBody "player1" "secret1") 1).2 = .sendStatus 201 ∧
    (signup demoLib (signup demoLib State.init (demoUserBody "player1" "secret1") 1).1
      (demoUserBody "player1" "secret1") 2).2 = .sendStatus 201 ∧
    (signup demoLib (signup demoLib State.init (demoUserBody "player1" "secret1") 1).1
      (demoUserBody "player1" "secret1") 2).1 =
        (signup demoLib State.init (demoUserBody "player1" "secret1") 1).1 ∧
    ((signup demoLib (signup demoLib State.init (demoUserBody "player1" "secret1") 1).1
      (demoUserBody "player1" "secret1") 2).1.users.filter
        (fun u => u.userHandle == strField (demoUserBody "player1" "secret1") "userHandle")).length
      = 1 :=
  ⟨⟨fun pw salt => by simp [demoLib], by decide⟩,
    signup_idempotent demoLib State.init (demoUserBody "player1" "secret1") 1 2
      (fun pw salt => by simp [demoLib]) (by decide)
      (fun u hu => by simp [State.init] at hu) (by decide)⟩

/-- C5: when the store holds a user with the handle of a valid payload (the user
`users.find` returns) and the password does not match that user's stored hash,
`POST /signup` responds 400 with the message `User already exists` and leaves the
state unchanged, so that user and the stored hash stay as they were. -/
theorem signup_conflict (lib : Lib) (st : State) (body : JVal) (salt : Nat) (u : User)
    (hvalid : validate lib userSchema body = [])
    (hfind : st.users.find? (fun u => u.userHandle == strField body "userHandle") = some u)
    (hmis : lib.bcryptCompare (strField body "password") u.password = false) :
    u ∈ st.users ∧ u.userHandle = strField body "userHandle" ∧
    signup lib st body salt = (st, .json 400 (.message "User already exists")) := by
  have hp := List.find?_some hfind
  refine ⟨List.mem_of_find?_eq_some hfind, by simpa using hp, ?_⟩
  simp [signup, validateBody_eq_none lib userSchema body hvalid, hfind, hmis]

/-- Witness for C5: a registered handle with another password. -/
theorem signup_conflict_witness :
    (validate demoLib userSchema (demoUserBody "player1" "secret2") = [] ∧
      (State.mk [⟨"player1", "$2b$10$secret1"⟩] []).users.find?
        (fun u => u.userHandle == strField (demoUserBody "player1" "secret2") "userHandle") =
          some ⟨"player1", "$2b$10$secret1"⟩ ∧
      demoLib.bcryptCompare (strField (demoUserBody "player1" "secret2") "password")
        (User.mk "player1" "$2b$10$secret1").password = false) ∧
    signup demoLib (State.mk [⟨"player1", "$2b$10$secret1"⟩] [])
        (demoUserBody "player1" "secret2") 0 =
      (State.mk [⟨"player1", "$2b$10$secret1"⟩] [], .json 400 (.message "User already exists")) :=
  ⟨⟨by decide, by decide, by decide⟩,
    (signup_conflict demoLib (State.mk [⟨"player1", "$2b$10$secret1"⟩] [])
      (demoUserBody "player1" "secret2") 0 ⟨"player1", "$2b$10$secret1"⟩
      (by decide) (by decide) (by decide)).2.2⟩

/-- C6: in every state reachable from the empty stores by signup, login,
score-submission and score-query requests handled one after another, the user store
holds at most one user per handle. -/
theorem reachable_users_unique (lib : Lib) (st : State) (h : Reachable lib st) :
    UniqueHandles st.users := by
  induction h with
  | init => exact List.nodup_nil
  | step st req _ ih => exact handle_users_unique lib st req ih

/-- Witness for C6: the state after the same signup handled twice. -/
theorem reachable_users_unique_witness :
    Reachable demoLib
      (handle demoLib (handle demoLib State.init
        (.signup (demoUserBody "player1" "secret1") 1)).1
        (.signup (demoUserBody "player1" "secret1") 2)).1 ∧
    UniqueHandles
      (handle demoLib (handle demoLib State.init
        (.signup (demoUserBody "player1" "secret1") 1)).1
        (.signup (demoUserBody "player1" "secret1") 2)).1.users :=
  ⟨Reachable.step _ _ (Reachable.step _ _ Reachable.init),
    reachable_users_unique demoLib _ (Reachable.step _ _ (Reachable.step _ _ Reachable.init))⟩

/-- C7 as stated fails: the unauthorized response is not without body. For a valid
payload whose handle is not stored, `POST /login` answers with `res.sendStatus(401)`,
whose entity is the status message `Unauthorized`. -/
theorem login_unauthorized_body_counterexample :
    validate demoLib userSchema (demoUserBody "nobody" "secret1") = [] ∧
    (∀ v ∈ State.init.users, v.userHandle ≠ strField (demoUserBody "nobody" "secret1") "userHandle") ∧
    (login demoLib State.init (demoUserBody "nobody" "secret1") 0).2.status = 401 ∧
    (login demoLib State.init (demoUserBody "nobody" "secret1") 0).2.wireBody =
      .text "Unauthorized" ∧
    WireBody.text "Unauthorized" ≠ .text "" := by
  refine ⟨by decide, by decide, by decide, by decide, by decide⟩

/-- C7, amended: for every state, a `POST /login` with a valid payload whose handle
is not stored and one whose handle is stored (as the user `users.find` returns) with
a password that does not match the stored hash get the same response, status 401
sent by `res.sendStatus`, whose entity is the fixed status message `Unauthorized`
and holds no token; every login leaves the state unchanged; and a response carrying
a token is sent exactly when the payload is valid, the handle is stored and the
password matches the stored hash. -/
theorem login_unauthorized_uniform (lib : Lib) (st : State) :
    (∀ (body : JVal) (now : Nat), validate lib userSchema body = [] →
      (∀ v ∈ st.users, v.userHandle ≠ strField body "userHandle") →
      login lib st body now = (st, .sendStatus 401)) ∧
    (∀ (body : JVal) (now : Nat) (u : User), validate lib userSchema body = [] →
      st.users.find? (fun v => v.userHandle == strField body "userHandle") = some u →
      lib.bcryptCompare (strField body "password") u.password = false →
      login lib st body now = (st, .sendStatus 401)) ∧
    (Response.sendStatus 401).status = 401 ∧
    (Response.sendStatus 401).wireBody = .text "Unauthorized" ∧
    (∀ (body : JVal) (now : Nat), (login lib st body now).1 = st) ∧
    (∀ (body : JVal) (now : Nat),
      (∃ code t, (login lib st body now).2 = .json code (.jsonWebToken t)) ↔
        (validate lib userSchema body = [] ∧
          ∃ u, st.users.find? (fun v => v.userHandle == strField body "userHandle") = some u ∧
            lib.bcryptCompare (strField body "password") u.password = true)) ∧
    (∀ (body : JVal) (now : Nat) (u : User), validate lib userSchema body = [] →
      st.users.find? (fun v => v.userHandle == strField body "userHandle") = some u →
      lib.bcryptCompare (strField body "password") u.password = true →
      (login lib st body now).2 =
        .json 200 (.jsonWebToken (lib.jwtSign (strField body "userHandle") now))) := by
  refine ⟨?_, ?_, rfl, rfl, fun body now => login_state lib st body now, ?_, ?_⟩
  · intro body now hvalid hunknown
    have hnone : st.users.find? (fun v => v.userHandle == strField body "userHandle") = none := by
      rw [List.find?_eq_none]
      intro v hv
      simpa using hunknown v hv
    simp [login, validateBody_eq_none lib userSchema body hvalid, hnone]
  · intro body now u hvalid hfind hmis
    simp [login, validateBody_eq_none lib userSchema body hvalid, hfind, hmis]
  · intro body now
    constructor
    · rintro ⟨code, t, hresp⟩
      by_cases hv : validate lib userSchema body = []
      · refine ⟨hv, ?_⟩
        unfold login at hresp
        rw [validateBody_eq_none lib userSchema body hv] at hresp
        simp only at hresp
        cases hf : st.users.find? (fun v => v.userHandle == strField body "userHandle") with
        | none => rw [hf] at hresp; simp at hresp
        | some v =>
          rw [hf] at hresp
          simp only at hresp
          by_cases hc : lib.bcryptCompare (strField body "password") v.password = true
          · exact ⟨v, rfl, hc⟩
          · simp [hc] at hresp
      · unfold login at hresp
        rw [validateBody_eq_some lib userSchema body hv] at hresp
        simp at hresp
    · rintro ⟨hvalid, u, hfind, hc⟩
      refine ⟨200, lib.jwtSign (strField body "userHandle") now, ?_⟩
      simp [login, validateBody_eq_none lib userSchema body hvalid, hfind, hc]
  · intro body now u hvalid hfind hc
    simp [login, validateBody_eq_none lib userSchema body hvalid, hfind, hc]

/-- Witness for the amended C7: on the empty store an unknown handle gets the bare
401, and on a one-user store an unknown handle and a wrong password get the same
response while the right password gets the token. -/
theorem login_unauthorized_uniform_witness :
    (validate demoLib userSchema (demoUserBody "nobody" "secret1") = [] ∧
      (∀ v ∈ State.init.users,
        v.userHandle ≠ strField (demoUserBody "nobody" "secret1") "userHandle") ∧
      (∀ v ∈ (State.mk [⟨"player1", "$2b$10$secret1"⟩] []).users,
        v.userHandle ≠ strField (demoUserBody "nobody" "secret1") "userHandle") ∧
      validate demoLib userSchema (demoUserBody "player1" "secret2") = [] ∧
      (State.mk [⟨"player1", "$2b$10$secret1"⟩] []).users.find?
        (fun v => v.userHandle == strField (demoUserBody "player1" "secret2") "userHandle") =
          some ⟨"player1", "$2b$10$secret1"⟩ ∧
      demoLib.bcryptCompare (strField (demoUserBody "player1" "secret2") "password")
        (User.mk "player1" "$2b$10$secret1").password = false ∧
      validate demoLib userSchema (demoUserBody "player1" "secret1") = [] ∧
      demoLib.bcryptCompare (strField (demoUserBody "player1" "secret1") "password")
        (User.mk "player1" "$2b$10$secret1").password = true) ∧
    login demoLib State.init (demoUserBody "nobody" "secret1") 0 =
      (State.init, .sendStatus 401) ∧
    login demoLib (State.mk [⟨"player1", "$2b$10$secret1"⟩] [])
        (demoUserBody "nobody" "secret1") 0 =
      (State.mk [⟨"player1", "$2b$10$secret1"⟩] [], .sendStatus 401) ∧
    login demoLib (State.mk [⟨"player1", "$2b$10$secret1"⟩] [])
        (demoUserBody "player1" "secret2") 5 =
      (State.mk [⟨"player1", "$2b$10$secret1"⟩] [], .sendStatus 401) ∧
    (login demoLib (State.mk [⟨"player1", "$2b$10$secret1"⟩] [])
        (demoUserBody "player1" "secret1") 9).2 =
      .json 200 (.jsonWebToken "tok.player1") :=
  ⟨⟨by decide, by decide, by decide, by decide, by decide, by decide, by decide, by decide⟩,
    (login_unauthorized_uniform demoLib State.init).1
      (demoUserBody "nobody" "secret1") 0 (by decide) (by decide),
    (login_unauthorized_uniform demoLib (State.mk [⟨"player1", "$2b$10$secret1"⟩] [])).1
      (demoUserBody "nobody" "secret1") 0 (by decide) (by decide),
    (login_unauthorized_uniform demoLib (State.mk [⟨"player1", "$2b$10$secret1"⟩] [])).2.1
      (demoUserBody "player1" "secret2") 5 ⟨"player1", "$2b$10$secret1"⟩
      (by decide) (by decide) (by decide),
    (login_unauthorized_uniform demoLib (State.mk [⟨"player1", "$2b$10$secret1"⟩] [])).2.2.2.2.2.2
      (demoUserBody "player1" "secret1") 9 ⟨"player1", "$2b$10$secret1"⟩
      (by decide) (by decide) (by decide)⟩

/-- The route of line 108 on a delivered body: without an accepted token the
answer is 401 and the state is unchanged, whatever the body. -/
theorem postHighScores_no_token (lib : Lib) (st : State) (hdr : Option String)
    (body : JVal) (now : Nat)
    (h : hdr = none ∨ bearerToken hdr = none ∨
      ∃ t, bearerToken hdr = some t ∧ lib.jwtVerify t now = none) :
    postHighScores lib st hdr body now = (st, .sendStatus 401) := by
  have hauth : authenticateToken lib hdr now = some (.sendStatus 401) := by
    rcases h with h | h | ⟨t, h, hv⟩
    · subst h; rfl
    · simp [authenticateToken, h]
    · simp [authenticateToken, h, hv]
  simp [postHighScores, hauth]

/-- C8 as stated fails: `express.json()` runs before `authenticateToken`, so a
request without `Authorization` header whose entity the parser rejects (status 400,
a JSON text it cannot parse) is answered by the parser error, not by 401. -/
theorem postHighScoresRequest_parse_error_counterexample :
    ((none : Option String) = none ∨ bearerToken none = none ∨
      ∃ t, bearerToken none = some t ∧ demoLib.jwtVerify t 0 = none) ∧
    postHighScoresRequest demoLib demoLedger none (.parseError 400) 0 =
      (demoLedger, .parserError 400) ∧
    (postHighScoresRequest demoLib demoLedger none (.parseError 400) 0).2.status = 400 ∧
    postHighScoresRequest demoLib demoLedger none (.parseError 400) 0 ≠
      (demoLedger, .sendStatus 401) := by
  refine ⟨Or.inl rfl, by decide, by decide, by decide⟩

/-- C8, amended: for every state and every `POST /high-scores` request whose
`Authorization` header is absent, yields no token after the first space, or yields a
token that `jwt.verify` rejects: when the body parser delivers a body, valid score
payload or not, the response is the bare status 401, since token verification runs
before payload validation and before any write; when the body parser rejects the
entity, the response is the parser error with its status; in both cases the state
is unchanged. -/
theorem postHighScoresRequest_unauthenticated (lib : Lib) (st : State)
    (hdr : Option String) (entity : ParsedEntity) (now : Nat)
    (h : hdr = none ∨ bearerToken hdr = none ∨
      ∃ t, bearerToken hdr = some t ∧ lib.jwtVerify t now = none) :
    (∀ body, entity = .body body →
      postHighScoresRequest lib st hdr entity now = (st, .sendStatus 401)) ∧
    (∀ code, entity = .parseError code →
      postHighScoresRequest lib st hdr entity now = (st, .parserError code)) ∧
    (postHighScoresRequest lib st hdr entity now).1 = st := by
  cases entity with
  | body v =>
    have h1 : postHighScoresRequest lib st hdr (.body v) now = (st, .sendStatus 401) :=
      postHighScores_no_token lib st hdr v now h
    refine ⟨fun body _ => h1, ?_, by rw [h1]⟩
    intro code hc
    cases hc
  | parseError c =>
    refine ⟨?_, ?_, rfl⟩
    · intro body hb
      cases hb
    · intro code hc
      cases hc
      rfl

/-- Witness for the amended C8: a header with the scheme word only, with a body
that `scoreSchema` accepts and a ledger that stays as it was. -/
theorem postHighScoresRequest_unauthenticated_witness :
    ((some "Bearer" : Option String) = none ∨ bearerToken (some "Bearer") = none ∨
      ∃ t, bearerToken (some "Bearer") = some t ∧ demoLib.jwtVerify t 0 = none) ∧
    validate demoLib scoreSchema (demoScoreBody "A" 50) = [] ∧
    postHighScoresRequest demoLib demoLedger (some "Bearer") (.body (demoScoreBody "A" 50)) 0 =
      (demoLedger, .sendStatus 401) :=
  ⟨Or.inr (Or.inl (by decide)), by decide,
    (postHighScoresRequest_unauthenticated demoLib demoLedger (some "Bearer")
      (.body (demoScoreBody "A" 50)) 0 (Or.inr (Or.inl (by decide)))).1 _ rfl⟩

/-- C9: for every state and every authenticated `POST /high-scores` whose body is an
object lacking one of the required properties `level`, `userHandle`, `score`,
`timestamp`, the response is 400 with a non-empty error list that holds the
`required` error naming the missing property, and the state is unchanged. -/
theorem postHighScores_missing_property (lib : Lib) (st : State) (hdr : Option String)
    (kvs : List (String × JVal)) (now : Nat) (p : String)
    (hauth : authenticateToken lib hdr now = none)
    (hp : p ∈ ["level", "userHandle", "score", "timestamp"])
    (hmiss : (JVal.obj kvs).get p = none) :
    ∃ errors : List AjvError,
      postHighScores lib st hdr (.obj kvs) now = (st, .json 400 (.errors errors)) ∧
      errors ≠ [] ∧
      { instancePath := "", keyword := "required", params := .missingProperty p } ∈ errors := by
  have hmem : ({ instancePath := "", keyword := "required", params := .missingProperty p } :
      AjvError) ∈ validate lib scoreSchema (.obj kvs) := by
    have hl : kvs.lookup p = none := hmiss
    have hreq : ({ instancePath := "", keyword := "required", params := .missingProperty p } :
        AjvError) ∈ requiredErrors scoreSchema.required kvs := by
      unfold requiredErrors
      refine List.mem_map.mpr ⟨p, List.mem_filter.mpr ⟨hp, ?_⟩, rfl⟩
      simp [hl]
    unfold validate
    simp only [List.mem_append]
    exact Or.inl (Or.inl hreq)
  have hne : validate lib scoreSchema (.obj kvs) ≠ [] := List.ne_nil_of_mem hmem
  refine ⟨validate lib scoreSchema (.obj kvs), ?_, hne, hmem⟩
  simp [postHighScores, hauth, validateBody_eq_some lib scoreSchema _ hne]

/-- Witness for C9: a payload without `timestamp`. -/
theorem postHighScores_missing_property_witness :
    (authenticateToken demoLib (some "Bearer tok.player1") 0 = none ∧
      "timestamp" ∈ ["level", "userHandle", "score", "timestamp"] ∧
      (JVal.obj [("level", .str "A"), ("userHandle", .str "player1"), ("score", .num 3)]).get
        "timestamp" = none) ∧
    ∃ errors : List AjvError,
      postHighScores demoLib demoLedger (some "Bearer tok.player1")
          (.obj [("level", .str "A"), ("userHandle", .str "player1"), ("score", .num 3)]) 0 =
        (demoLedger, .json 400 (.errors errors)) ∧
      errors ≠ [] ∧
      { instancePath := "", keyword := "required", params := .missingProperty "timestamp" }
        ∈ errors :=
  ⟨⟨by decide, by decide, rfl⟩,
    postHighScores_missing_property demoLib demoLedger (some "Bearer tok.player1")
      [("level", .str "A"), ("userHandle", .str "player1"), ("score", .num 3)] 0 "timestamp"
      (by decide) (by decide) rfl⟩

/-- C10: a score whose level is the empty string is stored but never retrieved.
`scoreSchema` accepts the payload with level `""` (given a timestamp that passes the
`date-time` format), so the authenticated `POST /high-scores` responds 201 and the
record is in the new ledger; `GET /high-scores` with level `""` responds 400 with
the same message as when level is omitted; and no 200 response of
`GET /high-scores`, for any state and query, holds a record with the empty level. -/
theorem empty_level_stored_never_retrieved (lib : Lib) (st : State) (hdr : Option String)
    (now : Nat) (userHandle timestamp : String) (score : Int)
    (hauth : authenticateToken lib hdr now = none)
    (hts : lib.formatOk "date-time" timestamp = true) :
    validate lib scoreSchema (.obj [("level", .str ""), ("userHandle", .str userHandle),
      ("score", .num score), ("timestamp", .str timestamp)]) = [] ∧
    (postHighScores lib st hdr (.obj [("level", .str ""), ("userHandle", .str userHandle),
      ("score", .num score), ("timestamp", .str timestamp)]) now).2 = .sendStatus 201 ∧
    ({ level := "", userHandle := userHandle, score := score, timestamp := timestamp } : Score) ∈
      (postHighScores lib st hdr (.obj [("level", .str ""), ("userHandle", .str userHandle),
        ("score", .num score), ("timestamp", .str timestamp)]) now).1.scores ∧
    (∀ (st2 : State) (page : Option Int),
      getHighScores st2 (some (.str "")) page = (st2, .json 400 (.message "Level is required")) ∧
      getHighScores st2 none page = (st2, .json 400 (.message "Level is required"))) ∧
    (∀ (st2 : State) (level : Option QueryValue) (page : Option Int) (l : List Score),
      (getHighScores st2 level page).2 = .json 200 (.scores l) → ∀ r ∈ l, r.level ≠ "") := by
  have hvalid : validate lib scoreSchema (.obj [("level", .str ""), ("userHandle", .str userHandle),
      ("score", .num score), ("timestamp", .str timestamp)]) = [] := by
    simp [validate, requiredErrors, additionalErrors, propertiesErrors, propErrors, scoreSchema,
      List.lookup, hts]
  refine ⟨hvalid, ?_, ?_, ?_, ?_⟩
  · rw [postHighScores_ok lib st hdr _ now hauth hvalid]
  · rw [postHighScores_ok lib st hdr _ now hauth hvalid]
    show _ ∈ jsSort compareScores _
    rw [mem_jsSort]
    simp [asScore, strField, intField, JVal.get, List.lookup]
  · intro st2 page
    exact ⟨rfl, rfl⟩
  · intro st2 level page l hresp r hr
    unfold getHighScores at hresp
    simp only at hresp
    split at hresp
    · simp at hresp
    · rename_i hlm
      injection hresp with _ hb
      injection hb with hl
      subst hl
      have hr2 := (mem_jsSort _ _ _).mp (mem_slice _ _ _ _ hr)
      have hr3 := (List.mem_filter.mp hr2).2
      match level, hlm, hr3 with
      | some (.str s), hlm, hr3 =>
        simp only [levelMatches, beq_iff_eq] at hr3
        simp only [levelMissing, beq_iff_eq] at hlm
        rw [hr3]; exact hlm
      | some .other, _, hr3 => simp [levelMatches] at hr3
      | none, _, hr3 => simp [levelMatches] at hr3

/-- Witness for C10 on the empty ledger. -/
theorem empty_level_stored_never_retrieved_witness :
    (authenticateToken demoLib (some "Bearer tok.player1") 0 = none ∧
      demoLib.formatOk "date-time" "2025-01-01T00:00:00Z" = true) ∧
    (postHighScores demoLib State.init (some "Bearer tok.player1")
      (.obj [("level", .str ""), ("userHandle", .str "player1"),
        ("score", .num 7), ("timestamp", .str "2025-01-01T00:00:00Z")]) 0).2 = .sendStatus 201 :=
  ⟨⟨by decide, by decide⟩,
    (empty_level_stored_never_retrieved demoLib State.init (some "Bearer tok.player1") 0
      "player1" "2025-01-01T00:00:00Z" 7 (by decide) (by decide)).2.1⟩

end Server
